import Mathlib

/-
Verification of the electronics-ai backend (FastAPI + llama-index + FAISS).
Shallow embedding of:
  backend/main.py          (QueryRequest validator, process_response, the /ask route)
  backend/ai_engine/ai_engine.py (ask_ai with lru_cache, learn_from_interaction)
  backend/ai_engine/index.py     (build_index persistence, validate_index_files,
                                  load_or_build_index)
External collaborators (llama-index store, FAISS, Redis, the embedding model and
the LLM, the CPython string hash) are modelled as explicit parameters or small
state structures; the control flow and data handling are translated from the
Python source.
-/

namespace ElectronicsAI

/-- Helper: does the character list `hay` start with `needle`? Used to model the
Python substring operator `in` on strings. -/
def charsStart : List Char → List Char → Bool
  | [], _ => true
  | _ :: _, [] => false
  | a :: as, b :: bs => a == b && charsStart as bs

/-- Helper: does `needle` occur as a contiguous run inside `hay`? -/
def charsHaveSub (needle : List Char) : List Char → Bool
  | [] => needle.isEmpty
  | c :: t => charsStart needle (c :: t) || charsHaveSub needle t

/-- Model of the Python expression `needle in hay` for strings. -/
def strHasSub (hay needle : String) : Bool :=
  charsHaveSub needle.data hay.data

/-- Embedding of main.py process_response (lines 100-106): branches on whether
the lowered response mentions "datasheet" or "specification", but every branch
returns the input unchanged. -/
def processResponse (response : String) : String :=
  if strHasSub response.toLower "datasheet" then response
  else if strHasSub response.toLower "specification" then response
  else response

/-- Model of the Python string slice `v[:n]`: the first `n` code points. -/
def pySlice (v : String) (n : Nat) : String := String.mk (v.data.take n)

/-- Helper: drop leading whitespace characters. -/
def dropLeadingWs : List Char → List Char
  | [] => []
  | c :: t => if c.isWhitespace then dropLeadingWs t else c :: t

/-- Model of Python str.strip with no argument: remove leading and trailing
whitespace. -/
def pyStrip (s : String) : String :=
  String.mk (((dropLeadingWs s.data).reverse |> dropLeadingWs).reverse)

/-- Embedding of main.py QueryRequest.query_not_empty (lines 36-40): rejects an
empty string (`not v`) or a whitespace-only string (`not v.strip()`), otherwise
returns `v[:1000]` — the raw input truncated to 1000 characters, without any
trimming of the returned value. -/
def queryNotEmpty (v : String) : Except String String :=
  if v = "" ∨ pyStrip v = "" then Except.error "Query cannot be empty"
  else Except.ok (pySlice v 1000)

/-- Embedding of the f-string in ai_engine.py line 129. -/
def mkQAText (q a : String) : String := "Q: " ++ q ++ "\n" ++ "A: " ++ a

/-- A llama-index TextNode with its embedding, as held by the vector store. The
embedding vector is abstracted to a list of integers produced by the external
embedding model. -/
structure TextNode where
  text : String
  embedding : List Int
deriving DecidableEq, Repr

/-- Result of learn_from_interaction: the in-memory node list after the call and
whether the call raised. -/
structure LearnOutcome where
  store : List TextNode
  raised : Bool
deriving DecidableEq, Repr

/-- Embedding of ai_engine.py learn_from_interaction (lines 123-141): builds one
TextNode from the formatted Q/A text, appends it to the live store
(index.insert_nodes assigns the new node its embedding and leaves existing
nodes untouched), then persists. A persist failure (persistOk = false) is
logged and re-raised by the inner handler, and the outer handler logs and
re-raises again, so the exception escapes to the caller; the in-memory
insertion is not rolled back. -/
def learnFromInteraction (embed : String → List Int) (store : List TextNode)
    (q a : String) (persistOk : Bool) : LearnOutcome :=
  let node : TextNode := ⟨mkQAText q a, embed (mkQAText q a)⟩
  ⟨store ++ [node], !persistOk⟩

/-- Python exceptions that index.py build_index can raise. -/
inductive PyExc where
  | fileNotFound : String → PyExc
deriving DecidableEq, Repr

/-- Embedding of the document-loading phase of index.py build_index (lines
26-32): if the datasheet directory does not exist or lists no files, raise
FileNotFoundError; otherwise load the files and chunk them into nodes. The
chunker (utils.get_chunked_documents / SentenceSplitter) is an explicit
parameter. -/
def buildIndexNodes (chunk : List String → List String) (dirExists : Bool)
    (files : List String) : Except PyExc (List String) :=
  if !dirExists || files.isEmpty then
    Except.error (PyExc.fileNotFound "No datasheets found in data/datasheets.")
  else Except.ok (chunk files)

/-- Model of the CPython builtin string hash used at main.py line 122. CPython
randomizes string hashing per process (PYTHONHASHSEED), so the value is a
function of the process hash seed as well as of the text; we abstract the
concrete SipHash by a seed-parameterized polynomial hash reduced modulo 2^64.
What the proofs use is only its shape: deterministic in (seed, text), and
seed-dependent. -/
def pyStrHash (seed : Nat) (s : String) : Nat :=
  s.data.foldl (fun h c => (h * 31 + c.toNat) % 18446744073709551616)
    (seed % 18446744073709551616)

/-- Embedding of main.py line 122: the cache key is the f-string
`query:` followed by hash(query + (context or "")). -/
def cacheKey (seed : Nat) (query : String) (context : Option String) : String :=
  "query:" ++ toString (pyStrHash seed (query ++ context.getD ""))

/-- One Redis entry as written by the /ask route: a key, the stored answer text
(the JSON wrapper around the response string is modelled away since it is read
back through the same wrapper), and the expiry passed to set. -/
structure CacheEntry where
  key : String
  value : String
  ttl : Nat
deriving DecidableEq, Repr

/-- Model of redis get. -/
def redisGet (c : List CacheEntry) (k : String) : Option String :=
  (c.find? (fun e => e.key == k)).map (fun e => e.value)

/-- Model of redis set with an expiry. -/
def redisSet (c : List CacheEntry) (k v : String) (ttl : Nat) : List CacheEntry :=
  ⟨k, v, ttl⟩ :: c.filter (fun e => !(e.key == k))

/-- The maxsize argument of the lru_cache decorator on ask_ai. -/
def lruMaxSize : Nat := 128

/-- Lookup in the in-process memo table of ask_ai, most recent first. -/
def lruLookup (m : List (String × String)) (q : String) : Option String :=
  (m.find? (fun p => p.1 == q)).map (fun p => p.2)

/-- Memo-table update after a miss: the new pair becomes most recent and the
least recently used entry is evicted when the table is full. -/
def lruInsert (m : List (String × String)) (q a : String) : List (String × String) :=
  ((q, a) :: m.filter (fun p => !(p.1 == q))).take lruMaxSize

/-- Memo-table update after a hit: the entry moves to the most recent slot. -/
def lruTouch (m : List (String × String)) (q : String) : List (String × String) :=
  match lruLookup m q with
  | some a => (q, a) :: m.filter (fun p => !(p.1 == q))
  | none => m

/-- Result of one ask_ai call: the answer, the memo table afterwards, and
whether the function body (index load, retrieval, generation) actually ran. -/
structure AskAiResult where
  answer : String
  memo : List (String × String)
  pipelineRan : Bool
deriving DecidableEq, Repr

/-- Embedding of ai_engine.py ask_ai (lines 76-92) together with its lru_cache
decorator: on a memo hit the cached string is returned and the body is not
executed; on a miss the retrieval-plus-generation pipeline (the parameter
compute, which may read the live store) produces the answer, which is then
memoized. -/
def askAi (compute : List TextNode → String → String) (store : List TextNode)
    (memo : List (String × String)) (q : String) : AskAiResult :=
  match lruLookup memo q with
  | some a => ⟨a, lruTouch memo q, false⟩
  | none =>
    let a := compute store q
    ⟨a, lruInsert memo q a, true⟩

/-- Process state visible to the /ask route: the optional Redis connection (None
when startup failed), the ask_ai memo table, and the live vector store. -/
structure AskState where
  redis : Option (List CacheEntry)
  memo : List (String × String)
  store : List TextNode
deriving DecidableEq, Repr

/-- What the /ask route sends back: a JSON body with the response text and the
cached flag, or an HTTPException status. -/
inductive AskResponse where
  | ok (response : String) (cached : Bool)
  | httpError (code : Nat)
deriving DecidableEq, Repr

/-- Observable outcome of one /ask request: the response, the state afterwards,
the (query, answer) pair handed to learn_from_interaction if it was invoked,
and whether the ask_ai body ran. -/
structure AskOutcome where
  response : AskResponse
  state : AskState
  learnerArg : Option (String × String)
  pipelineRan : Bool
deriving DecidableEq, Repr

/-- Embedding of the /ask route (main.py lines 108-152). The cache key is
computed from the process hash seed; when Redis is connected and holds the key,
the cached answer is returned through process_response with cached = true and
nothing else happens. Otherwise ask_ai produces the answer, process_response is
applied for the reply, learn_from_interaction is invoked with the raw answer,
and on its success the raw answer is cached with expiry 3600; if
learn_from_interaction raises (persist failure) the handler at the bottom of
the route converts the exception into HTTP 500, the cache is not written, and
the already mutated in-memory state (memo table and store) is kept. -/
def ask (embed : String → List Int) (compute : List TextNode → String → String)
    (seed : Nat) (persistOk : Bool) (st : AskState) (query : String)
    (context : Option String) : AskOutcome :=
  let key := cacheKey seed query context
  let hit : Option String :=
    match st.redis with
    | some cache => redisGet cache key
    | none => none
  match hit with
  | some v => ⟨AskResponse.ok (processResponse v) true, st, none, false⟩
  | none =>
    let r := askAi compute st.store st.memo query
    let lr := learnFromInteraction embed st.store query r.answer persistOk
    if lr.raised then
      ⟨AskResponse.httpError 500, ⟨st.redis, r.memo, lr.store⟩,
        some (query, r.answer), r.pipelineRan⟩
    else
      ⟨AskResponse.ok (processResponse r.answer) false,
        ⟨st.redis.map (fun cache => redisSet cache key r.answer 3600),
          r.memo, lr.store⟩,
        some (query, r.answer), r.pipelineRan⟩

/-
Persistence protocol of build_index (index.py lines 45-63), as a sequence of
filesystem steps. File contents are tracked as version numbers: 0 for the
previously persisted snapshot, 1 for the snapshot being written.
-/

/-- The files produced by storage_context.persist into the temporary directory;
docstore.json and index_store.json are the ones validate_index_files later
requires. -/
def scFiles : List String := ["docstore.json", "index_store.json"]

/-- The separately written FAISS vector-data file (FAISS_INDEX_PATH). -/
def faissFile : String := "faiss_index.index"

/-- All files of a persisted snapshot. -/
def snapshotFiles : List String := scFiles ++ [faissFile]

/-- Filesystem state: the final storage directory and the temporary staging
directory (none when the staging directory does not exist), each a map from
file name to content version. -/
structure FS where
  final : List (String × Nat)
  temp : Option (List (String × Nat))
deriving DecidableEq, Repr

/-- Lookup in a directory listing. -/
def fsGet (m : List (String × Nat)) (f : String) : Option Nat :=
  (m.find? (fun p => p.1 == f)).map (fun p => p.2)

/-- Overwrite or create an entry in a directory listing. -/
def fsSet (m : List (String × Nat)) (f : String) (v : Nat) : List (String × Nat) :=
  (f, v) :: m.filter (fun p => !(p.1 == f))

/-- The individual filesystem steps build_index performs while persisting. -/
inductive FsOp where
  | writeTemp (f : String) (v : Nat)
  | renameToFinal (f : String)
  | removeTempDir
  | writeFinal (f : String) (v : Nat)
deriving DecidableEq, Repr

/-- Effect of one step: writeTemp is a file write inside the staging directory
(storage_context.persist), renameToFinal is the per-file os.rename from the
staging directory into STORAGE_DIR, removeTempDir is os.rmdir, and writeFinal
is the direct in-place faiss.write_index to the final path. -/
def applyOp (s : FS) : FsOp → FS
  | FsOp.writeTemp f v => ⟨s.final, some (fsSet (s.temp.getD []) f v)⟩
  | FsOp.renameToFinal f =>
    match fsGet (s.temp.getD []) f with
    | some v => ⟨fsSet s.final f v, some ((s.temp.getD []).filter (fun p => !(p.1 == f)))⟩
    | none => s
  | FsOp.removeTempDir => ⟨s.final, none⟩
  | FsOp.writeFinal f v => ⟨fsSet s.final f v, s.temp⟩

/-- The step sequence of index.py lines 47-63 in program order:
storage_context.persist writes each file into the temporary directory, then the
for-loop renames each file individually into STORAGE_DIR, then os.rmdir removes
the staging directory, then faiss.write_index writes the FAISS file directly to
its final path — twice, per lines 60 and 63. -/
def buildPersistOps : List FsOp :=
  scFiles.map (fun f => FsOp.writeTemp f 1)
    ++ scFiles.map FsOp.renameToFinal
    ++ [FsOp.removeTempDir, FsOp.writeFinal faissFile 1, FsOp.writeFinal faissFile 1]

/-- Every filesystem state a concurrent reader (or a crash) can observe during
the step sequence, the initial state included. -/
def fsTrace (s : FS) : List FsOp → List FS
  | [] => [s]
  | op :: ops => s :: fsTrace (applyOp s op) ops

/-- Run all steps. -/
def runOps (s : FS) (ops : List FsOp) : FS := ops.foldl applyOp s

/-- The state before build_index persists: a previously valid complete snapshot
(all files at version 0) and no staging directory. -/
def oldSnapshotFS : FS := ⟨snapshotFiles.map (fun f => (f, 0)), none⟩

/-- Does the final directory hold a complete snapshot entirely at version v? -/
def completeAt (s : FS) (v : Nat) : Bool :=
  snapshotFiles.all (fun f => fsGet s.final f == some v)

/-- A state that is neither the prior complete snapshot nor the new complete
snapshot: a mixture. -/
def mixedState (s : FS) : Bool :=
  !completeAt s 0 && !completeAt s 1

/-
Snapshot validation and load_or_build_index (index.py lines 67-112).
-/

/-- Observable condition of the three snapshot files that validate_index_files
and the load path inspect: existence of each required file, JSON parsability of
the two .json files, readability of the FAISS file by faiss.read_index, and the
node counts recorded in the vector-data file (faissCount, its ntotal) and in
the docstore/index metadata (metaCount). -/
structure SnapshotFiles where
  faissPresent : Bool
  faissReadable : Bool
  faissCount : Nat
  docstorePresent : Bool
  docstoreParses : Bool
  indexStorePresent : Bool
  indexStoreParses : Bool
  metaCount : Nat
deriving DecidableEq, Repr

/-- Embedding of validate_index_files (index.py lines 67-89): each of
FAISS_INDEX_PATH, docstore.json, index_store.json must exist, and each file
ending in .json must parse as JSON; the FAISS file is not parse-checked and no
node counts are compared. -/
def validateIndexFiles (s : SnapshotFiles) : Bool :=
  s.faissPresent && s.docstorePresent && s.docstoreParses
    && s.indexStorePresent && s.indexStoreParses

/-- What load_or_build_index returns: an index loaded from disk (carrying the
counts the two files recorded) or the result of a fresh build. -/
inductive LoadResult where
  | loaded (faissCount metaCount : Nat)
  | built
deriving DecidableEq, Repr

/-- Embedding of load_or_build_index (index.py lines 91-112): when validation
passes, faiss.read_index and the storage context load run; an exception there
is caught and falls through to build_index, as does a failed validation. No
agreement between the two recorded node counts is ever required on the load
path. -/
def loadOrBuildIndex (s : SnapshotFiles) : LoadResult :=
  if validateIndexFiles s then
    if s.faissReadable then LoadResult.loaded s.faissCount s.metaCount
    else LoadResult.built
  else LoadResult.built

/-- Modelled from the spec (section 4.1), for comparison with the code:
validation as the claim words it — all required files exist, every structured
file parses (the FAISS file included), and the node counts recorded in the
vector-data file and the metadata agree. -/
def specValidateSnapshot (s : SnapshotFiles) : Bool :=
  s.faissPresent && s.docstorePresent && s.docstoreParses
    && s.indexStorePresent && s.indexStoreParses && s.faissReadable
    && (s.faissCount == s.metaCount)

/-
Helper lemmas shared by the claim theorems.
-/

/-- Every branch of process_response returns its input. -/
theorem processResponse_eq (r : String) : processResponse r = r := by
  unfold processResponse
  split
  · rfl
  · split <;> rfl

/-- Looking up the key that redisSet just wrote returns the value just set. -/
theorem redisGet_set (c : List CacheEntry) (k v : String) (ttl : Nat) :
    redisGet (redisSet c k v ttl) k = some v := by
  simp [redisGet, redisSet]

/-- After a miss inserts into the ask_ai memo table, the query is found. -/
theorem lruLookup_insert (m : List (String × String)) (q a : String) :
    lruLookup (lruInsert m q a) q = some a := by
  unfold lruInsert lruMaxSize
  rw [List.take_succ_cons]
  simp [lruLookup]

/-- After a hit refreshes the memo table, the query is still found with the
same answer. -/
theorem lruLookup_touch (m : List (String × String)) (q a : String)
    (h : lruLookup m q = some a) : lruLookup (lruTouch m q) q = some a := by
  unfold lruTouch
  rw [h]
  simp [lruLookup]

/-- One ask_ai call always leaves its own query memoized with its own answer. -/
theorem askAi_memoized (compute : List TextNode → String → String)
    (store : List TextNode) (memo : List (String × String)) (q : String) :
    lruLookup (askAi compute store memo q).memo q
      = some (askAi compute store memo q).answer := by
  unfold askAi
  cases h : lruLookup memo q with
  | some a => simpa using lruLookup_touch memo q a h
  | none => simpa using lruLookup_insert memo q (compute store q)

/-- When the memo table already holds the query, ask_ai answers from it without
executing its body. -/
theorem askAi_hit (compute : List TextNode → String → String)
    (store : List TextNode) (m : List (String × String)) (q a : String)
    (h : lruLookup m q = some a) :
    askAi compute store m q = ⟨a, lruTouch m q, false⟩ := by
  unfold askAi
  rw [h]

/-- Evaluation of the /ask route on the miss path with persistence succeeding:
whether Redis is disconnected or connected but without the key, the route runs
ask_ai, passes the answer to learn_from_interaction (which appends one node),
writes the cache when connected, and replies with the answer tagged
cached = false. -/
theorem ask_miss_eval (embed : String → List Int)
    (compute : List TextNode → String → String) (seed : Nat)
    (redisOpt : Option (List CacheEntry)) (memo : List (String × String))
    (store : List TextNode) (q : String) (c : Option String)
    (h : match redisOpt with
         | some cache => redisGet cache (cacheKey seed q c) = none
         | none => True) :
    ask embed compute seed true ⟨redisOpt, memo, store⟩ q c
      = ⟨AskResponse.ok (askAi compute store memo q).answer false,
         ⟨redisOpt.map (fun cache => redisSet cache (cacheKey seed q c)
             (askAi compute store memo q).answer 3600),
          (askAi compute store memo q).memo,
          store ++ [⟨mkQAText q (askAi compute store memo q).answer,
                     embed (mkQAText q (askAi compute store memo q).answer)⟩]⟩,
         some (q, (askAi compute store memo q).answer),
         (askAi compute store memo q).pipelineRan⟩ := by
  cases redisOpt with
  | none => simp [ask, learnFromInteraction, processResponse_eq]
  | some cache =>
    have h' : redisGet cache (cacheKey seed q c) = none := h
    simp [ask, h', learnFromInteraction, processResponse_eq]

/-- Evaluation of the /ask route on the hit path: the cached value is returned
tagged cached = true and nothing else changes. -/
theorem ask_hit_eval (embed : String → List Int)
    (compute : List TextNode → String → String) (seed : Nat) (persistOk : Bool)
    (cache : List CacheEntry) (memo : List (String × String))
    (store : List TextNode) (q : String) (c : Option String) (v : String)
    (h : redisGet cache (cacheKey seed q c) = some v) :
    ask embed compute seed persistOk ⟨some cache, memo, store⟩ q c
      = ⟨AskResponse.ok v true, ⟨some cache, memo, store⟩, none, false⟩ := by
  simp [ask, h, processResponse_eq]

/-
Claim theorems.
-/

/-- C1, counterexample: during build_index persistence, after the first
per-file rename (state 3 of the observable trace) the storage directory holds
the new docstore.json next to the old index_store.json and the old FAISS file —
neither the prior complete snapshot nor the new one, refuting the claim that a
reader can only ever observe one of the two complete snapshots. -/
theorem claim1_counterexample :
    mixedState ((fsTrace oldSnapshotFS buildPersistOps).getD 3 oldSnapshotFS) = true := by
  decide

/-- C1, amended: build_index stages the storage-context files in a temporary
directory but publishes them by renaming each file individually (one rename
per storage-context file, no directory rename), the FAISS vector-data file is
never staged — it is written directly to its final path, twice — and a mixed
old/new state is observable mid-sequence; the sequence does end with the new
snapshot complete. -/
theorem claim1_amended_thm :
    (fsTrace oldSnapshotFS buildPersistOps).any mixedState = true
    ∧ (fsTrace oldSnapshotFS buildPersistOps).all
        (fun s => fsGet (s.temp.getD []) faissFile == none) = true
    ∧ completeAt (runOps oldSnapshotFS buildPersistOps) 1 = true
    ∧ buildPersistOps.countP (fun op => match op with
        | FsOp.renameToFinal _ => true
        | _ => false) = scFiles.length
    ∧ buildPersistOps.countP (fun op => match op with
        | FsOp.writeFinal _ _ => true
        | _ => false) = 2 := by
  decide

/-- A snapshot whose two recorded node counts disagree while all files exist
and parse. -/
def mismatchedSnapshot : SnapshotFiles :=
  ⟨true, true, 1, true, true, true, true, 2⟩

/-- C2, counterexample: a snapshot whose vector-data file records 1 node while
the metadata records 2 fails the validation the claim describes, yet
load_or_build_index loads it instead of falling through to build — the code
never compares the two counts. -/
theorem claim2_counterexample :
    specValidateSnapshot mismatchedSnapshot = false
    ∧ loadOrBuildIndex mismatchedSnapshot = LoadResult.loaded 1 2 := by
  decide

/-- C2, amended: load_or_build_index loads exactly when the three required
files exist, the two .json files parse, and the FAISS file is readable; the
recorded node counts are never compared; any missing file, unparsable .json
file or unreadable FAISS file falls through to build without raising. -/
theorem claim2_amended_thm (s : SnapshotFiles) :
    (loadOrBuildIndex s = LoadResult.loaded s.faissCount s.metaCount
       ↔ (validateIndexFiles s && s.faissReadable) = true)
    ∧ ((validateIndexFiles s && s.faissReadable) = false →
       loadOrBuildIndex s = LoadResult.built) := by
  unfold loadOrBuildIndex
  by_cases h1 : validateIndexFiles s = true <;>
    by_cases h2 : s.faissReadable = true <;>
      simp_all

/-- C2, witness for the amended theorem at a snapshot missing docstore.json. -/
theorem claim2_witness :
    loadOrBuildIndex ⟨true, true, 0, false, true, true, true, 0⟩ = LoadResult.built :=
  (claim2_amended_thm ⟨true, true, 0, false, true, true, true, 0⟩).2 (by decide)

/-- C3, counterexample: with the datasheet directory present but empty — the
empty system the claim speaks about — build_index raises FileNotFoundError
instead of seeding a placeholder Document; no placeholder exists anywhere in
the code. -/
theorem claim3_counterexample :
    buildIndexNodes (fun d => d) true []
      = Except.error (PyExc.fileNotFound "No datasheets found in data/datasheets.") := rfl

/-- C3, amended: whenever the datasheet directory is missing or lists no files,
build_index fails with FileNotFoundError; no placeholder Document is seeded and
no index is produced. -/
theorem claim3_amended_thm (chunk : List String → List String) (dirExists : Bool)
    (files : List String) (h : files = [] ∨ dirExists = false) :
    buildIndexNodes chunk dirExists files
      = Except.error (PyExc.fileNotFound "No datasheets found in data/datasheets.") := by
  unfold buildIndexNodes
  rcases h with h | h <;> simp [h]

/-- C3, witness for the amended theorem with a missing datasheet directory. -/
theorem claim3_witness :
    buildIndexNodes (fun d => d) false ["a.pdf"]
      = Except.error (PyExc.fileNotFound "No datasheets found in data/datasheets.") :=
  claim3_amended_thm (fun d => d) false ["a.pdf"] (Or.inr rfl)

/-- C4, counterexample: a concrete /ask request in which the in-memory insert
succeeds and the persist fails ends in HTTP 500 — the learn failure is
re-raised and turns the served answer into a request failure, refuting the
claim that such failures are only logged and the answer still succeeds. -/
theorem claim4_counterexample :
    (ask (fun _ => [0]) (fun _ _ => "ans") 0 false ⟨none, [], []⟩ "q" none).response
      = AskResponse.httpError 500 := by
  decide

/-- C4, amended: when the in-memory insertion succeeds but the persist fails,
the inserted node is retained in memory, but learn_from_interaction logs and
re-raises, and the /ask handler converts the exception into HTTP 500: the
user-visible request fails even though an answer was generated. -/
theorem claim4_amended_thm (embed : String → List Int)
    (compute : List TextNode → String → String) (seed : Nat)
    (memo : List (String × String)) (store : List TextNode)
    (q : String) (c : Option String) :
    (learnFromInteraction embed store q
        (askAi compute store memo q).answer false).raised = true
    ∧ (ask embed compute seed false ⟨none, memo, store⟩ q c).state.store
        = store ++ [⟨mkQAText q (askAi compute store memo q).answer,
                     embed (mkQAText q (askAi compute store memo q).answer)⟩]
    ∧ (ask embed compute seed false ⟨none, memo, store⟩ q c).response
        = AskResponse.httpError 500 := by
  refine ⟨rfl, ?_, ?_⟩ <;> simp [ask, learnFromInteraction]

/-- C5: learn_from_interaction appends exactly one node whose text is the
formatted Q/A string with its freshly requested embedding; every pre-existing
node (text and embedding alike) is left in place unchanged, and the store grows
by exactly one. -/
theorem claim5_thm (embed : String → List Int) (store : List TextNode)
    (q a : String) (persistOk : Bool) :
    (learnFromInteraction embed store q a persistOk).store
        = store ++ [⟨"Q: " ++ q ++ "\n" ++ "A: " ++ a,
                     embed ("Q: " ++ q ++ "\n" ++ "A: " ++ a)⟩]
    ∧ ((learnFromInteraction embed store q a persistOk).store).take store.length = store
    ∧ ((learnFromInteraction embed store q a persistOk).store).length
        = store.length + 1 := by
  refine ⟨rfl, ?_, ?_⟩
  · simp [learnFromInteraction, List.take_left]
  · simp [learnFromInteraction]

/-- Evaluation of the /ask route on the miss path with persistence failing:
the learner is still invoked (and its in-memory insert kept), but the
re-raised exception becomes HTTP 500 and the cache is not written. -/
theorem ask_missFail_eval (embed : String → List Int)
    (compute : List TextNode → String → String) (seed : Nat)
    (redisOpt : Option (List CacheEntry)) (memo : List (String × String))
    (store : List TextNode) (q : String) (c : Option String)
    (h : match redisOpt with
         | some cache => redisGet cache (cacheKey seed q c) = none
         | none => True) :
    ask embed compute seed false ⟨redisOpt, memo, store⟩ q c
      = ⟨AskResponse.httpError 500,
         ⟨redisOpt, (askAi compute store memo q).memo,
          store ++ [⟨mkQAText q (askAi compute store memo q).answer,
                     embed (mkQAText q (askAi compute store memo q).answer)⟩]⟩,
         some (q, (askAi compute store memo q).answer),
         (askAi compute store memo q).pipelineRan⟩ := by
  cases redisOpt with
  | none => simp [ask, learnFromInteraction]
  | some cache =>
    have h' : redisGet cache (cacheKey seed q c) = none := h
    simp [ask, h', learnFromInteraction]

/-- C6, counterexample: a concrete cache miss (Redis connected, key absent)
whose persist fails: the Interaction Learner is invoked, but the request comes
back as HTTP 500 rather than an answer tagged cached = false, and the cache is
not populated — refuting the unconditional miss branch of the claim. -/
theorem claim6_counterexample :
    (ask (fun _ => [2]) (fun _ _ => "a6") 3 false ⟨some [], [], []⟩ "q6" none).response
        = AskResponse.httpError 500
    ∧ (ask (fun _ => [2]) (fun _ _ => "a6") 3 false ⟨some [], [], []⟩ "q6" none).state.redis
        = some []
    ∧ (ask (fun _ => [2]) (fun _ _ => "a6") 3 false ⟨some [], [], []⟩ "q6" none).learnerArg
        = some ("q6", "a6") := by
  decide

/-- C6, amended: with Redis connected, a cache hit returns the cached answer
tagged cached = true without invoking the Interaction Learner and without
touching any state (so a repeated identical query within the TTL window adds
no duplicate learned node); a cache miss whose persist succeeds returns the
generated answer tagged cached = false, invokes the learner with that answer,
and writes the cache entry with the fixed expiry 3600; a cache miss whose
persist fails still invokes the learner but returns HTTP 500 and leaves the
cache unwritten. -/
theorem claim6_thm (embed : String → List Int)
    (compute : List TextNode → String → String) (seed : Nat) (persistOk : Bool)
    (cache : List CacheEntry) (memo : List (String × String))
    (store : List TextNode) (q : String) (c : Option String) (v : String) :
    (redisGet cache (cacheKey seed q c) = some v →
       ask embed compute seed persistOk ⟨some cache, memo, store⟩ q c
         = ⟨AskResponse.ok v true, ⟨some cache, memo, store⟩, none, false⟩)
    ∧ (redisGet cache (cacheKey seed q c) = none → persistOk = true →
       (ask embed compute seed persistOk ⟨some cache, memo, store⟩ q c).response
           = AskResponse.ok (askAi compute store memo q).answer false
       ∧ (ask embed compute seed persistOk ⟨some cache, memo, store⟩ q c).learnerArg
           = some (q, (askAi compute store memo q).answer)
       ∧ (ask embed compute seed persistOk ⟨some cache, memo, store⟩ q c).state.redis
           = some (redisSet cache (cacheKey seed q c)
               (askAi compute store memo q).answer 3600))
    ∧ (redisGet cache (cacheKey seed q c) = none → persistOk = false →
       (ask embed compute seed persistOk ⟨some cache, memo, store⟩ q c).response
           = AskResponse.httpError 500
       ∧ (ask embed compute seed persistOk ⟨some cache, memo, store⟩ q c).learnerArg
           = some (q, (askAi compute store memo q).answer)
       ∧ (ask embed compute seed persistOk ⟨some cache, memo, store⟩ q c).state.redis
           = some cache) := by
  refine ⟨?_, ?_, ?_⟩
  · intro h
    exact ask_hit_eval embed compute seed persistOk cache memo store q c v h
  · intro hmiss hp
    subst hp
    rw [ask_miss_eval embed compute seed (some cache) memo store q c hmiss]
    exact ⟨rfl, rfl, rfl⟩
  · intro hmiss hp
    subst hp
    rw [ask_missFail_eval embed compute seed (some cache) memo store q c hmiss]
    exact ⟨rfl, rfl, rfl⟩

/-- C6, witness: a hit on a stored entry is served from cache unchanged, a
miss on an empty cache with persist succeeding is generated, learned and
cached, and a miss with persist failing ends in HTTP 500. -/
theorem claim6_witness :
    ask (fun _ => [0]) (fun _ _ => "ans") 0 true
        ⟨some [⟨cacheKey 0 "q" none, "cv", 3600⟩], [], []⟩ "q" none
      = ⟨AskResponse.ok "cv" true,
         ⟨some [⟨cacheKey 0 "q" none, "cv", 3600⟩], [], []⟩, none, false⟩
    ∧ (ask (fun _ => [0]) (fun _ _ => "ans") 0 true ⟨some [], [], []⟩ "q2" none).response
        = AskResponse.ok (askAi (fun _ _ => "ans") [] [] "q2").answer false
    ∧ (ask (fun _ => [0]) (fun _ _ => "ans") 0 false ⟨some [], [], []⟩ "q3" none).response
        = AskResponse.httpError 500 := by
  refine ⟨?_, ?_, ?_⟩
  · exact (claim6_thm (fun _ => [0]) (fun _ _ => "ans") 0 true
      [⟨cacheKey 0 "q" none, "cv", 3600⟩] [] [] "q" none "cv").1 (by decide)
  · exact ((claim6_thm (fun _ => [0]) (fun _ _ => "ans") 0 true
      [] [] [] "q2" none "x").2.1 (by decide) rfl).1
  · exact ((claim6_thm (fun _ => [0]) (fun _ _ => "ans") 0 false
      [] [] [] "q3" none "x").2.2 (by decide) rfl).1

/-- C7, counterexample: the same query hashed in two process runs (two hash
seeds) yields different cache keys — the key is not a function of the query and
context text alone. -/
theorem claim7_counterexample : cacheKey 0 "hi" none ≠ cacheKey 1 "hi" none := by
  decide

/-- C7, amended: within one process run (one hash seed) the cache key is a
deterministic function of the concatenated query and context text — any two
(query, context) pairs with the same concatenation share the key — but the key
also depends on the per-process hash seed, so two process runs may disagree. -/
theorem claim7_amended_thm (seed : Nat) (q1 q2 : String) (c1 c2 : Option String)
    (h : q1 ++ c1.getD "" = q2 ++ c2.getD "") :
    cacheKey seed q1 c1 = cacheKey seed q2 c2 := by
  unfold cacheKey
  rw [h]

/-- C7, witness: with one seed, query "ab" with no context and query "a" with
context "b" concatenate identically and get the same key. -/
theorem claim7_witness : cacheKey 5 "ab" none = cacheKey 5 "a" (some "b") :=
  claim7_amended_thm 5 "ab" "a" none (some "b") rfl

/-- C8, counterexample: the validator returns the input " a" unchanged — the
surrounding whitespace survives — while the claim predicts the trimmed "a". -/
theorem claim8_counterexample :
    queryNotEmpty " a" = Except.ok " a"
    ∧ pyStrip " a" = "a"
    ∧ (" a" : String) ≠ "a" :=
  ⟨rfl, rfl, by decide⟩

/-- C8, amended: the validator rejects empty and whitespace-only queries and
caps the processed query at 1000 characters, but performs no trimming of the
returned value: the processed query is the raw input truncated to its first
1000 characters. -/
theorem claim8_amended_thm (v : String) (h1 : v ≠ "") (h2 : pyStrip v ≠ "") :
    queryNotEmpty v = Except.ok (pySlice v 1000)
    ∧ (pySlice v 1000).length ≤ 1000 := by
  constructor
  · unfold queryNotEmpty
    simp [h1, h2]
  · show (v.data.take 1000).length ≤ 1000
    exact List.length_take_le 1000 v.data

/-- C8, witness for the amended theorem on a short nonblank query. -/
theorem claim8_witness :
    queryNotEmpty "ok" = Except.ok (pySlice "ok" 1000)
    ∧ (pySlice "ok" 1000).length ≤ 1000 :=
  claim8_amended_thm "ok" (by decide) (by decide)

/-- C9: in one process, after a first /ask computed a query with Redis absent,
a second /ask for the identical query — with Redis still absent, or connected
but no longer holding the key (expired TTL) — returns the identical answer
string from the ask_ai lru memo without re-running retrieval or generation,
and the transport still tags it cached = false. -/
theorem claim9_thm (embed : String → List Int)
    (compute : List TextNode → String → String) (seed : Nat)
    (memo : List (String × String)) (store : List TextNode)
    (q : String) (c : Option String) (redis2 : Option (List CacheEntry))
    (h2 : match redis2 with
          | some cache => redisGet cache (cacheKey seed q c) = none
          | none => True) :
    ∃ a : String,
      (ask embed compute seed true ⟨none, memo, store⟩ q c).response
          = AskResponse.ok a false
      ∧ (ask embed compute seed true
            ⟨redis2, (ask embed compute seed true ⟨none, memo, store⟩ q c).state.memo,
             (ask embed compute seed true ⟨none, memo, store⟩ q c).state.store⟩
            q c).response
          = AskResponse.ok a false
      ∧ (ask embed compute seed true
            ⟨redis2, (ask embed compute seed true ⟨none, memo, store⟩ q c).state.memo,
             (ask embed compute seed true ⟨none, memo, store⟩ q c).state.store⟩
            q c).pipelineRan = false := by
  refine ⟨(askAi compute store memo q).answer, ?_, ?_, ?_⟩ <;>
    rw [ask_miss_eval embed compute seed none memo store q c trivial]
  all_goals
    dsimp only
    rw [ask_miss_eval embed compute seed redis2 _ _ q c h2]
    dsimp only
    rw [askAi_hit compute _ (askAi compute store memo q).memo q
      (askAi compute store memo q).answer (askAi_memoized compute store memo q)]

/-- C9, witness: a concrete first and second call with Redis absent. -/
theorem claim9_witness :
    ∃ a : String,
      (ask (fun _ => [0]) (fun _ _ => "ans") 0 true ⟨none, [], []⟩ "q" none).response
          = AskResponse.ok a false
      ∧ (ask (fun _ => [0]) (fun _ _ => "ans") 0 true
            ⟨none, (ask (fun _ => [0]) (fun _ _ => "ans") 0 true
                ⟨none, [], []⟩ "q" none).state.memo,
             (ask (fun _ => [0]) (fun _ _ => "ans") 0 true
                ⟨none, [], []⟩ "q" none).state.store⟩ "q" none).response
          = AskResponse.ok a false
      ∧ (ask (fun _ => [0]) (fun _ _ => "ans") 0 true
            ⟨none, (ask (fun _ => [0]) (fun _ _ => "ans") 0 true
                ⟨none, [], []⟩ "q" none).state.memo,
             (ask (fun _ => [0]) (fun _ _ => "ans") 0 true
                ⟨none, [], []⟩ "q" none).state.store⟩ "q" none).pipelineRan = false :=
  claim9_thm (fun _ => [0]) (fun _ _ => "ans") 0 [] [] "q" none none trivial

/-- C10: process_response is the identity on every string, and consequently on
the cache-miss path the served response text, the answer handed to
learn_from_interaction and the value stored in the cache are the same string. -/
theorem claim10_thm :
    (∀ r : String, processResponse r = r)
    ∧ ∀ (embed : String → List Int) (compute : List TextNode → String → String)
        (seed : Nat) (cache : List CacheEntry) (memo : List (String × String))
        (store : List TextNode) (q : String) (c : Option String),
        redisGet cache (cacheKey seed q c) = none →
        ∃ a : String,
          (ask embed compute seed true ⟨some cache, memo, store⟩ q c).response
              = AskResponse.ok a false
          ∧ (ask embed compute seed true ⟨some cache, memo, store⟩ q c).learnerArg
              = some (q, a)
          ∧ redisGet
              (((ask embed compute seed true ⟨some cache, memo, store⟩ q c).state.redis).getD [])
              (cacheKey seed q c) = some a := by
  refine ⟨processResponse_eq, ?_⟩
  intro embed compute seed cache memo store q c h
  rw [ask_miss_eval embed compute seed (some cache) memo store q c h]
  exact ⟨(askAi compute store memo q).answer, rfl, rfl,
    redisGet_set cache (cacheKey seed q c) (askAi compute store memo q).answer 3600⟩

/-- C10, witness: a concrete miss-path request in which the response, the
learner argument and the cached value coincide. -/
theorem claim10_witness :
    ∃ a : String,
      (ask (fun _ => [1]) (fun _ _ => "out") 7 true ⟨some [], [], []⟩ "w" none).response
          = AskResponse.ok a false
      ∧ (ask (fun _ => [1]) (fun _ _ => "out") 7 true ⟨some [], [], []⟩ "w" none).learnerArg
          = some ("w", a)
      ∧ redisGet
          (((ask (fun _ => [1]) (fun _ _ => "out") 7 true ⟨some [], [], []⟩ "w" none).state.redis).getD [])
          (cacheKey 7 "w" none) = some a :=
  claim10_thm.2 (fun _ => [1]) (fun _ _ => "out") 7 [] [] [] "w" none (by decide)

end ElectronicsAI
